import Mathlib

/-!
Verification of the kernel host's wire codec and execution coordinator.

The definitions below are a shallow embedding of the Rust sources:
`src/wire/message.rs` (frame parsing and HMAC validation), `src/kernel.rs`
(worker startup in `Kernel::connect`), and `ark/src/r_kernel.rs` (the R
execution coordinator `RKernel`).  Byte strings are `List Nat`, multipart
messages are `List (List Nat)`, and an HMAC-SHA256 instance keyed with the
session key is modelled abstractly as a function from the MAC input bytes to
the tag bytes (successive `update` calls concatenate their inputs).
-/

namespace Amalthea

/-- Bytes of the literal delimiter `<IDS|MSG>` from `src/wire/message.rs`. -/
def MSG_DELIM : List Nat := [60, 73, 68, 83, 124, 77, 83, 71, 62]

/-- Errors produced by `hex::decode`. -/
inductive HexError where
  | invalidHexCharacter (c : Nat) (index : Nat)
  | oddLength
deriving DecidableEq, Repr

/-- The unit error type `hmac::digest::MacError`. -/
inductive MacError where
  | mk
deriving DecidableEq, Repr

/-- The error enum `MessageError` from `src/wire/message.rs`. -/
inductive MessageError where
  | MissingDelimiter
  | InvalidHmac (data : List Nat) (e : HexError)
  | BadSignature (sig : List Nat) (e : MacError)
deriving DecidableEq, Repr

/-- Value of one ASCII hex digit, as accepted by the hex crate
(`0`-`9`, `a`-`f`, `A`-`F`). -/
def hexDigit (c : Nat) : Option Nat :=
  if 48 ≤ c ∧ c ≤ 57 then some (c - 48)
  else if 97 ≤ c ∧ c ≤ 102 then some (c - 87)
  else if 65 ≤ c ∧ c ≤ 70 then some (c - 55)
  else none

/-- Helper for `hexDecode`: decode byte pairs, tracking the character index
reported in `InvalidHexCharacter`. -/
def hexDecodeAux : List Nat → Nat → Except HexError (List Nat)
  | [], _ => .ok []
  | [_], _ => .error .oddLength
  | c1 :: c2 :: rest, i =>
    match hexDigit c1 with
    | none => .error (.invalidHexCharacter c1 i)
    | some d1 =>
      match hexDigit c2 with
      | none => .error (.invalidHexCharacter c2 (i + 1))
      | some d2 =>
        match hexDecodeAux rest (i + 2) with
        | .error e => .error e
        | .ok bs => .ok ((16 * d1 + d2) :: bs)

/-- Model of `hex::decode`: odd length is rejected first, then pairs of hex
digits are decoded left to right. -/
def hexDecode (s : List Nat) : Except HexError (List Nat) :=
  if s.length % 2 = 1 then .error .oddLength else hexDecodeAux s 0

/-- An `Hmac<Sha256>` instance keyed with the session key, modelled as the
function from MAC input bytes to tag bytes.  The source feeds frames with
successive `update` calls, so the MAC input of a frame list is the
concatenation of its frames. -/
def HmacKey : Type := List Nat → List Nat

/-- Outcome of a Rust computation that can return `Ok`, return `Err`,
or panic (as `Option::unwrap` does on `None`). -/
inductive RustResult (α : Type) where
  | ok (a : α)
  | err (e : MessageError)
  | panicked
deriving DecidableEq, Repr

/-- Placeholder for `JupyterHeader` (defined in `src/wire/header.rs`, which is
not among the sources; the parser in `message.rs` never constructs one, so its
fields are irrelevant here). -/
structure JupyterHeader where
  msg_type : String
deriving DecidableEq, Repr

/-- The struct `JupyterMessage<T>` from `src/wire/message.rs`.  Note that it
has no field for identity frames; `metadata` and `buffers` are the unit type
in the source as well. -/
structure JupyterMessage (T : Type) where
  header : JupyterHeader
  parent_header : JupyterHeader
  metadata : Unit
  content : T
  buffers : Unit

/-- Model of `JupyterMessage::validate_hmac`.  When a key is present the
source pops the LAST buffer (`bufs.pop().unwrap()`, with the comment
`TODO: don't unwrap, and this is not actually the hmac`) and treats it as the
hex signature; the MAC is then computed over all remaining buffers.  The
`unwrap` panics when `bufs` is empty. -/
def validate_hmac (bufs : List (List Nat)) (hmac_key : Option HmacKey) :
    RustResult Unit :=
  match hmac_key with
  | none => .ok ()
  | some key =>
    match bufs.getLast? with
    | none => .panicked
    | some data =>
      match hexDecode data with
      | .error e => .err (.InvalidHmac data e)
      | .ok decoded =>
        if key bufs.dropLast.flatten = decoded then .ok ()
        else .err (.BadSignature decoded .mk)

/-- Model of `JupyterMessage::from_msg_bufs`: validates the HMAC and then
returns `Err(MessageError::MissingDelimiter)` unconditionally (the parsing of
the message body is not implemented in the source). -/
def from_msg_bufs (T : Type) (bufs : List (List Nat))
    (hmac_key : Option HmacKey) : RustResult (JupyterMessage T) :=
  match validate_hmac bufs hmac_key with
  | .err e => .err e
  | .panicked => .panicked
  | .ok _ => .err .MissingDelimiter

/-- Model of `JupyterMessage::from_buffers`: finds the first frame equal to
`<IDS|MSG>` and hands the frames after it to `from_msg_bufs`, discarding the
frames before it; with no delimiter it fails with `MissingDelimiter`. -/
def from_buffers (T : Type) (bufs : List (List Nat))
    (hmac_key : Option HmacKey) : RustResult (JupyterMessage T) :=
  match bufs.findIdx? (fun buf => buf == MSG_DELIM) with
  | some pos => from_msg_bufs T (bufs.drop (pos + 1)) hmac_key
  | none => .err .MissingDelimiter

/-- A session key whose MAC is the constant tag `[0xab]`. -/
def constKey : HmacKey := fun _ => [171]

/-- A session key whose tag is the length of the MAC input, as one byte; it
distinguishes MAC inputs of different lengths. -/
def lenKey : HmacKey := fun msg => [msg.length % 256]

/-- A session key whose MAC is the constant tag `[0xc8]`. -/
def otherKey : HmacKey := fun _ => [200]

/-- Ports of the connection descriptor consulted by `Kernel::connect` in
`src/kernel.rs` (no other descriptor field is used there). -/
structure ConnectionFile where
  shell_port : Nat
  iopub_port : Nat
  hb_port : Nat
deriving DecidableEq, Repr

/-- One worker spawned by `Kernel::connect`, tagged with the port of the
socket it owns.  The `control` variant exists in the protocol design; whether
`connect` ever spawns it is settled below.  The execution worker owns no
socket of its own (it reuses a clone of the iopub socket). -/
inductive WorkerSpec where
  | shell (port : Nat)
  | iopub (port : Nat)
  | heartbeat (port : Nat)
  | execWorker
  | control (port : Nat)
deriving DecidableEq, Repr

/-- Whether a worker is the control worker. -/
def WorkerSpec.isControl : WorkerSpec → Bool
  | .control _ => true
  | _ => false

/-- Model of `Kernel::connect`: the `thread::spawn` calls it performs, in
source order — shell (ROUTER on `shell_port`), iopub (PUB on `iopub_port`),
heartbeat (REP on `hb_port`), and the execution thread. -/
def Kernel.connect (c : ConnectionFile) : List WorkerSpec :=
  [.shell c.shell_port, .iopub c.iopub_port, .heartbeat c.hb_port, .execWorker]

end Amalthea

namespace Ark

/-- Fields of `ExecuteRequest` read by `RKernel` in `ark/src/r_kernel.rs`. -/
structure ExecuteRequest where
  code : String
  silent : Bool
  store_history : Bool
deriving DecidableEq, Repr

/-- The `Status` enum used in execute replies. -/
inductive Status where
  | Ok
  | Error
deriving DecidableEq, Repr

/-- The `Exception` payload of a reply exception. -/
structure Exception where
  ename : String
  evalue : String
  traceback : List String
deriving DecidableEq, Repr

/-- An `ExecuteReply` message; `user_expressions` is a JSON object modelled as
an association list (the source always sends `json!({})`). -/
structure ExecuteReply where
  status : Status
  execution_count : Nat
  user_expressions : List (String × String)
deriving DecidableEq, Repr

/-- An `ExecuteReplyException` message. -/
structure ExecuteReplyException where
  status : Status
  execution_count : Nat
  exception : Exception
deriving DecidableEq, Repr

/-- The `ExecuteResponse` enum sent back to the shell worker. -/
inductive ExecuteResponse where
  | Reply (reply : ExecuteReply)
  | ReplyException (exc : ExecuteReplyException)
deriving DecidableEq, Repr

/-- Messages `RKernel` publishes on the iopub channel.  JSON maps are
modelled as association lists of string-valued entries, which is all the
source produces here. -/
inductive IOPubMessage where
  | ExecuteInput (code : String) (execution_count : Nat)
  | ExecuteResult (execution_count : Nat) (data : List (String × String))
      (metadata : List (String × String))
deriving DecidableEq, Repr

/-- The `RRequest` enum from `ark/src/r_request.rs`; the reply-channel sender
carried by `ExecuteCode` is modelled by the kernel state's
`has_response_sender` flag. -/
inductive RRequest where
  | ExecuteCode (req : ExecuteRequest)
  | Shutdown (restart : Bool)
deriving DecidableEq, Repr

/-- Modulus of the `u32` execution counter: 2 ^ 32 (kept as a numeral so
that `omega` can reason about the wrap). -/
def U32_MOD : Nat := 4294967296

/-- The mutable fields of `RKernel`; the presence of `response_sender` is a
Bool, and the channel endpoints are modelled by what is emitted on them.
`execution_count` is `u32` in the source; it is carried as a `Nat` whose
reachable values stay below `U32_MOD` because the increment wraps. -/
structure RKernelState where
  execution_count : Nat
  output : String
  banner : String
  initializing : Bool
  has_response_sender : Bool
deriving DecidableEq, Repr

/-- Model of `RKernel::new`: the initial kernel state (counter 0, empty
output and banner, no response sender yet). -/
def RKernel.new : RKernelState :=
  { execution_count := 0
    output := ""
    banner := ""
    initializing := true
    has_response_sender := false }

/-- Everything one `handle_execute_request` call changes or emits: the new
state, the iopub publications, and the messages sent to the R console. -/
structure HandleEffects where
  state : RKernelState
  iopub : List IOPubMessage
  console : List (Option String)
deriving DecidableEq, Repr

/-- Model of `RKernel::handle_execute_request`: reset the output
accumulator, install the reply sender, increment the counter when
`store_history` is set, publish an `ExecuteInput` with the code and the
current counter unless `silent`, and send the code to the R console.  The
increment `self.execution_count + 1` acts on a `u32`, so it wraps modulo
2 ^ 32 (Rust release-profile overflow semantics; a debug build would panic
there instead). -/
def handle_execute_request (st : RKernelState) (req : ExecuteRequest) :
    HandleEffects :=
  let st1 : RKernelState :=
    { st with output := "", has_response_sender := true }
  let st2 : RKernelState :=
    if req.store_history then
      { st1 with execution_count := (st1.execution_count + 1) % U32_MOD }
    else st1
  { state := st2
    iopub :=
      if req.silent then []
      else [.ExecuteInput req.code st2.execution_count]
    console := [some req.code] }

/-- Sequential processing of a list of execute requests by the coordinator,
returning the final state and the concatenated iopub publications. -/
def runRequests (st : RKernelState) :
    List ExecuteRequest → RKernelState × List IOPubMessage
  | [] => (st, [])
  | r :: rs =>
    let e := handle_execute_request st r
    let rest := runRequests e.state rs
    (rest.1, e.iopub ++ rest.2)

/-- Spec-side prediction of the `execute_input` events for a request
sequence, given the counter value `n` before the sequence: the counter
advances (as a `u32`, wrapping modulo 2 ^ 32) on `store_history` and exactly
the non-silent requests produce an event carrying the request's code and the
advanced counter. -/
def specExecuteInputs (n : Nat) : List ExecuteRequest → List IOPubMessage
  | [] => []
  | r :: rs =>
    let m := if r.store_history then (n + 1) % U32_MOD else n
    (if r.silent then [] else [.ExecuteInput r.code m]) ++ specExecuteInputs m rs

/-- Model of `RKernel::report_incomplete_request`: the reply sent on the
response channel (when a sender is installed) for a request whose code was
reported incomplete by the executor. -/
def report_incomplete_request (st : RKernelState) (req : RRequest) :
    Option ExecuteResponse :=
  let code :=
    match req with
    | .ExecuteCode r => r.code
    | _ => ""
  if st.has_response_sender then
    some (.ReplyException
      { status := .Error
        execution_count := st.execution_count
        exception :=
          { ename := "IncompleteInput"
            evalue := "Code fragment is not complete: " ++ code
            traceback := [] } })
  else none

/-- A data frame `Robj` as consumed by `RKernel::to_html`: the column names
and the columns, each cell already rendered to a string as R's `toString`
would render it. -/
structure Frame where
  names : List String
  cols : List (List String)
deriving DecidableEq, Repr

/-- Model of `frame.len()`: for a data frame, the number of columns. -/
def Frame.len (f : Frame) : Nat := f.cols.length

/-- Model of `frame.index(i)`: 1-based element access, `Ok` exactly when in
bounds. -/
def Frame.index (f : Frame) (i : Nat) : Option (List String) :=
  f.cols.get? (i - 1)

/-- One `<td>` cell of the body: the source appends a cell only when both
`index` calls succeed (`i` is the outer loop counter, `j` the inner one). -/
def tdCell (f : Frame) (i j : Nat) : String :=
  match f.index i with
  | none => ""
  | some col =>
    match col.get? (j - 1) with
    | none => ""
    | some v => "<td>" ++ v ++ "</td>"

/-- One `<tr>` body row at outer loop index `i`: the inner loop runs `j`
from 1 to `frame.len()`. -/
def bodyRow (f : Frame) (i : Nat) : String :=
  "<tr>" ++ String.join ((List.range' 1 f.len).map (tdCell f i)) ++ "</tr>"

/-- The list of body rows produced by the outer loop `for i in 1..5`. -/
def bodyRows (f : Frame) : List String :=
  (List.range' 1 4).map (bodyRow f)

/-- The `<thead>` row built from the column names. -/
def headRow (f : Frame) : String :=
  "<tr>" ++ String.join (f.names.map (fun n => "<th>" ++ n ++ "</th>")) ++
    "</tr>"

/-- Model of `RKernel::to_html`. -/
def to_html (f : Frame) : String :=
  "<table><thead>" ++ headRow f ++ "</thead><tbody>" ++
    String.join (bodyRows f) ++ "</tbody></table>"

/-- The R value `.Last.value` as read by `finish_request`: either a data
frame or any other value. -/
inductive RValue where
  | frameValue (f : Frame)
  | other
deriving DecidableEq, Repr

/-- Model of `Robj::is_frame` on the values above. -/
def RValue.is_frame : RValue → Bool
  | .frameValue _ => true
  | .other => false

/-- The MIME data map built by `RKernel::finish_request`: `text/plain` maps
to the accumulated output, and `text/html` to the HTML rendering exactly when
the last value is a data frame. -/
def finish_request_data (st : RKernelState) (last : RValue) :
    List (String × String) :=
  [("text/plain", st.output)] ++
    (match last with
     | .frameValue f => [("text/html", to_html f)]
     | .other => [])

/-- Model of `RKernel::finish_request`: the `ExecuteResult` published on
iopub (with empty metadata), and the `ExecuteReply` sent on the response
channel when a sender is installed. -/
def finish_request (st : RKernelState) (last : RValue) :
    IOPubMessage × Option ExecuteResponse :=
  ( .ExecuteResult st.execution_count (finish_request_data st last) []
  , if st.has_response_sender then
      some (.Reply
        { status := .Ok
          execution_count := st.execution_count
          user_expressions := [] })
    else none )

end Ark

/-- A concrete kernel state with a response sender installed, used by the
witnesses below. -/
def witnessState : Ark.RKernelState :=
  { execution_count := 3
    output := "out"
    banner := ""
    initializing := false
    has_response_sender := true }

/-- A concrete one-column data frame with six rows. -/
def witnessFrame : Ark.Frame :=
  { names := ["x"], cols := [["1", "2", "3", "4", "5", "6"]] }

/-- A concrete request that stores history and is silent. -/
def silentStoreReq : Ark.ExecuteRequest :=
  { code := "", silent := true, store_history := true }

/-- A concrete sequence of 2 ^ 32 requests, each with `store_history`
true: enough to wrap the `u32` execution counter. -/
def manyReqs : List Ark.ExecuteRequest :=
  List.replicate Ark.U32_MOD silentStoreReq

/-- The `U32_MOD` numeral is two to the thirty-second power. -/
theorem U32_MOD_eq_two_pow : Ark.U32_MOD = 2 ^ 32 := by
  norm_num [Ark.U32_MOD]

/-- The coordinator's run characterised from any start state whose counter
is a representable `u32` value: the counter advances, modulo 2 ^ 32, by the
number of history-storing requests, and the iopub stream is the predicted
sequence of `execute_input` events. -/
theorem runRequests_characterisation (rs : List Ark.ExecuteRequest) :
    ∀ st : Ark.RKernelState, st.execution_count < Ark.U32_MOD →
      (Ark.runRequests st rs).1.execution_count
          = (st.execution_count
              + (rs.filter (fun r => r.store_history)).length) % Ark.U32_MOD ∧
      (Ark.runRequests st rs).2
          = Ark.specExecuteInputs st.execution_count rs := by
  induction rs with
  | nil =>
    intro st hst
    simp [Ark.runRequests, Ark.specExecuteInputs, Nat.mod_eq_of_lt hst]
  | cons r rs ih =>
    intro st hst
    by_cases hs : r.store_history = true
    · obtain ⟨h1, h2⟩ :=
        ih { execution_count := (st.execution_count + 1) % Ark.U32_MOD,
             output := "", banner := st.banner,
             initializing := st.initializing, has_response_sender := true }
           (Nat.mod_lt _ (by norm_num [Ark.U32_MOD]))
      refine ⟨?_, ?_⟩ <;>
        simp [Ark.runRequests, Ark.specExecuteInputs,
          Ark.handle_execute_request, hs, List.filter_cons, h1, h2] <;>
        simp [Ark.U32_MOD] <;> omega
    · obtain ⟨h1, h2⟩ :=
        ih { execution_count := st.execution_count, output := "",
             banner := st.banner, initializing := st.initializing,
             has_response_sender := true }
           hst
      refine ⟨?_, ?_⟩ <;>
        simp [Ark.runRequests, Ark.specExecuteInputs,
          Ark.handle_execute_request, hs, List.filter_cons, h1, h2]

/-- Every request of `List.replicate n silentStoreReq` stores history, so
the history filter keeps all `n` of them. -/
theorem filter_replicate_store_history (n : Nat) :
    ((List.replicate n silentStoreReq).filter
        (fun r => r.store_history)).length = n := by
  induction n with
  | zero => rfl
  | succ n ih =>
    simpa [List.replicate_succ, List.filter_cons, silentStoreReq] using ih

/-- Claim C1: with no delimiter, parsing fails with `MissingDelimiter`
(first conjunct); but the round-trip half of the claim fails on the code.
At a well-formed signed frame sequence — delimiter present, the frame after
it a valid hex signature of the four payload frames under the session key
(second conjunct), payload frames `"h"`, `"p"`, `"m"` and the content bytes
of an empty JSON object — `from_buffers` returns no parsed message: it
rejects the message with `InvalidHmac`, because `validate_hmac` pops the
LAST frame (the JSON content) as the signature and its bytes are not hex. -/
theorem c1_wellformed_sequence_is_not_parsed :
    Amalthea.from_buffers Unit [[104], [112]] (some Amalthea.constKey)
        = .err .MissingDelimiter ∧
    Amalthea.hexDecode [97, 98]
        = .ok (Amalthea.constKey ([104] ++ [112] ++ [109] ++ [123, 125])) ∧
    Amalthea.from_buffers Unit
        [Amalthea.MSG_DELIM, [97, 98], [104], [112], [109], [123, 125]]
        (some Amalthea.constKey)
      = .err (.InvalidHmac [123, 125] (.invalidHexCharacter 123 0)) :=
  ⟨rfl, rfl, rfl⟩

/-- Claim C2 fails on the code: in the frame sequence below the frame after
the delimiter is a valid signature of header, parent header, metadata and
content under the session key (first conjunct: the key that hashes input
length maps those four frames, 5 bytes, to the tag `[5]`, whose hex is the
signature frame `"05"`), yet parsing rejects the message with
`BadSignature`, because the code pops the LAST frame (the content `"00"`) as
the signature and MACs the remaining frames — signature, header, parent
header, metadata — instead of header through content. -/
theorem c2_mac_uses_wrong_frames :
    Amalthea.hexDecode [48, 53]
        = .ok (Amalthea.lenKey ([104] ++ [112] ++ [109] ++ [48, 48])) ∧
    Amalthea.from_buffers Unit
        [Amalthea.MSG_DELIM, [48, 53], [104], [112], [109], [48, 48]]
        (some Amalthea.lenKey)
      = .err (.BadSignature [0] .mk) :=
  ⟨rfl, rfl⟩

/-- Claim C3 fails on the code: the parser retains no identity frames.  The
parse result is identical for two inputs that differ only in the frames
before the delimiter, and no parsed message (hence no retained identity
list) is ever produced — only an error, so no reply can echo the request's
identities either. -/
theorem c3_identity_frames_discarded :
    Amalthea.from_buffers Unit [[1], Amalthea.MSG_DELIM, [104]] none
        = Amalthea.from_buffers Unit [[2, 3], Amalthea.MSG_DELIM, [104]] none ∧
    Amalthea.from_buffers Unit [[1], Amalthea.MSG_DELIM, [104]] none
        = .err .MissingDelimiter :=
  ⟨rfl, rfl⟩

/-- Claim C4 counterexample: `connect` does not start five workers with a
control worker among them.  At the concrete descriptor with ports 1, 2, 3 it
spawns four workers, and none of them is the control worker. -/
theorem c4_counterexample_no_control_worker :
    ¬ ((Amalthea.Kernel.connect ⟨1, 2, 3⟩).length = 5 ∧
       1 ≤ (Amalthea.Kernel.connect ⟨1, 2, 3⟩).countP
             Amalthea.WorkerSpec.isControl) := by
  decide

/-- Claim C4 as amended: `connect` starts four workers — shell, iopub and
heartbeat, each bound to its own endpoint, plus the execution worker — and
no control worker. -/
theorem c4_connect_starts_four_workers (c : Amalthea.ConnectionFile) :
    (Amalthea.Kernel.connect c).length = 4 ∧
    (Amalthea.Kernel.connect c).countP Amalthea.WorkerSpec.isControl = 0 ∧
    Amalthea.WorkerSpec.shell c.shell_port ∈ Amalthea.Kernel.connect c ∧
    Amalthea.WorkerSpec.iopub c.iopub_port ∈ Amalthea.Kernel.connect c ∧
    Amalthea.WorkerSpec.heartbeat c.hb_port ∈ Amalthea.Kernel.connect c ∧
    Amalthea.WorkerSpec.execWorker ∈ Amalthea.Kernel.connect c := by
  refine ⟨rfl, rfl, ?_, ?_, ?_, ?_⟩ <;> simp [Amalthea.Kernel.connect]

/-- Claim C5 counterexample: after 2 ^ 32 requests with `store_history`
true, the `u32` execution counter has wrapped to 0, so it does not equal the
number of history-storing requests as the claim states. -/
theorem c5_counterexample_counter_wraps :
    ¬ ((Ark.runRequests Ark.RKernel.new manyReqs).1.execution_count
        = (manyReqs.filter (fun r => r.store_history)).length) := by
  have h := (runRequests_characterisation manyReqs Ark.RKernel.new
    (by norm_num [Ark.RKernel.new, Ark.U32_MOD])).1
  have hlen : (manyReqs.filter (fun r => r.store_history)).length
      = Ark.U32_MOD := filter_replicate_store_history Ark.U32_MOD
  rw [h, hlen]
  simp [Ark.RKernel.new, Ark.U32_MOD]

/-- Claim C5 as amended: the execution counter starts at 0 and, being a
`u32`, is incremented modulo 2 ^ 32 exactly on the requests whose
`store_history` flag is true — after any request sequence it equals the
number of history-storing requests modulo 2 ^ 32 (hence that number itself
whenever it is below 2 ^ 32) — and the published `execute_input` events are
exactly those of the non-silent requests, each carrying its request's code
and the counter current at that request. -/
theorem c5_execution_counter_and_execute_input (rs : List Ark.ExecuteRequest) :
    Ark.RKernel.new.execution_count = 0 ∧
    (Ark.runRequests Ark.RKernel.new rs).1.execution_count
        = (rs.filter (fun r => r.store_history)).length % Ark.U32_MOD ∧
    (Ark.runRequests Ark.RKernel.new rs).2 = Ark.specExecuteInputs 0 rs := by
  have h := runRequests_characterisation rs Ark.RKernel.new
    (by norm_num [Ark.RKernel.new, Ark.U32_MOD])
  exact ⟨rfl, by simpa [Ark.RKernel.new] using h.1,
    by simpa [Ark.RKernel.new] using h.2⟩

/-- Claim C6 fails on the code: the frame following the delimiter, `"zz"`,
is not valid hexadecimal (first conjunct), so by the claim parsing should
fail with `InvalidHmac`; instead the code hex-decodes the LAST frame `"ab"`
successfully and fails with `BadSignature` on the MAC mismatch. -/
theorem c6_nonhex_signature_not_invalid_hmac :
    Amalthea.hexDigit 122 = none ∧
    Amalthea.from_buffers Unit
        [Amalthea.MSG_DELIM, [122, 122], [97, 98]] (some Amalthea.otherKey)
      = .err (.BadSignature [171] .mk) :=
  ⟨rfl, rfl⟩

/-- Claim C7 fails on the code: when the delimiter is the last frame and the
session has a signing key, `validate_hmac` runs `bufs.pop().unwrap()` on an
empty vector and panics instead of returning an error. -/
theorem c7_delimiter_last_panics :
    Amalthea.from_buffers Unit [Amalthea.MSG_DELIM] (some Amalthea.constKey)
      = .panicked :=
  rfl

/-- Claim C8: when the executor reports incomplete input for an execute
request and a response sender is installed, the reply sent on the response
channel is an execute-reply exception with status error, ename
IncompleteInput, evalue the fixed prefix followed by the request's code, and
an empty traceback. -/
theorem c8_incomplete_input_reply (st : Ark.RKernelState)
    (req : Ark.ExecuteRequest) (h : st.has_response_sender = true) :
    Ark.report_incomplete_request st (.ExecuteCode req)
      = some (.ReplyException
          { status := .Error
            execution_count := st.execution_count
            exception :=
              { ename := "IncompleteInput"
                evalue := "Code fragment is not complete: " ++ req.code
                traceback := [] } }) := by
  simp [Ark.report_incomplete_request, h]

/-- Witness for C8: the incomplete-input reply at a concrete state and the
request `"1+"`. -/
theorem c8_incomplete_input_reply_witness :
    Ark.report_incomplete_request witnessState
        (.ExecuteCode { code := "1+", silent := false, store_history := true })
      = some (.ReplyException
          { status := .Error
            execution_count := 3
            exception :=
              { ename := "IncompleteInput"
                evalue := "Code fragment is not complete: 1+"
                traceback := [] } }) :=
  c8_incomplete_input_reply witnessState
    { code := "1+", silent := false, store_history := true } rfl

/-- Claim C9: on completion, with a response sender installed, the
coordinator publishes an `execute_result` carrying the current execution
count and a MIME map whose `text/plain` entry is the accumulated output and
whose `text/html` entry is present exactly when the last value is a data
frame, and sends an `execute_reply` with status ok, the current count, and
empty user expressions. -/
theorem c9_finish_request_shapes (st : Ark.RKernelState) (last : Ark.RValue)
    (h : st.has_response_sender = true) :
    Ark.finish_request st last
        = (.ExecuteResult st.execution_count
             (Ark.finish_request_data st last) [],
           some (.Reply
             { status := .Ok
               execution_count := st.execution_count
               user_expressions := [] })) ∧
    (Ark.finish_request_data st last).lookup "text/plain" = some st.output ∧
    (Ark.finish_request_data st last).lookup "text/html"
        = (match last with
           | .frameValue f => some (Ark.to_html f)
           | .other => none) := by
  refine ⟨by simp [Ark.finish_request, h], ?_, ?_⟩ <;> cases last <;> rfl

/-- Witness for C9: the published result and reply at a concrete state and a
concrete data frame. -/
theorem c9_finish_request_witness :
    Ark.finish_request witnessState (.frameValue witnessFrame)
        = (.ExecuteResult 3
             (Ark.finish_request_data witnessState (.frameValue witnessFrame))
             [],
           some (.Reply
             { status := .Ok
               execution_count := 3
               user_expressions := [] })) ∧
    (Ark.finish_request_data witnessState
        (.frameValue witnessFrame)).lookup "text/plain" = some "out" ∧
    (Ark.finish_request_data witnessState
        (.frameValue witnessFrame)).lookup "text/html"
        = some (Ark.to_html witnessFrame) :=
  c9_finish_request_shapes witnessState (.frameValue witnessFrame) rfl

/-- Claim C10: for every data frame the body of `to_html` consists of
exactly four `<tr>` rows, at outer loop indices 1 through 4, independent of
how many rows the frame actually has. -/
theorem c10_to_html_four_body_rows (f : Ark.Frame) :
    (Ark.bodyRows f).length = 4 ∧
    Ark.bodyRows f
        = [Ark.bodyRow f 1, Ark.bodyRow f 2, Ark.bodyRow f 3,
           Ark.bodyRow f 4] ∧
    Ark.to_html f
        = "<table><thead>" ++ Ark.headRow f ++ "</thead><tbody>" ++
          String.join [Ark.bodyRow f 1, Ark.bodyRow f 2, Ark.bodyRow f 3,
            Ark.bodyRow f 4] ++ "</tbody></table>" :=
  ⟨rfl, rfl, rfl⟩
